import Mathlib

/-!
Verification of the Profit-Calculator pricing engine and in-memory estimate
store.  The pricing engine (`calculateEstimate`) is a pure function from a
`CalculationInput` to a `CalculationResults`; its arithmetic on JavaScript
numbers is embedded here over `ℚ` (exact rational arithmetic, the idealised
model of the engine's real-number computation).  The in-memory store
(`MemStorage`) is embedded as explicit state passing over a list of records.
-/

namespace ProfitCalc

/-- One commodity entry of a pricing request. -/
structure ProductLine where
  name : String
  quantity : ℚ
  unitPrice : ℚ
  included : Bool
  margin : ℚ
deriving DecidableEq

/-- One pricing request (mirrors the `CalculationInput` interface). -/
structure CalculationInput where
  products : List ProductLine
  transportCost : ℚ
  packingCost : ℚ
  fumigationCost : ℚ
  customsClearanceCost : ℚ
  exportDutyRate : ℚ
  freightCost : ℚ
  importDuty : ℚ
  destinationCustomsClearance : ℚ
  destinationTransport : ℚ
  distributorMargin : ℚ
  retailerMargin : ℚ
deriving DecidableEq

/-- One per-product entry of the output breakdown. -/
structure ProductBreakdownEntry where
  name : String
  quantity : ℚ
  unitCost : ℚ
  margin : ℚ
  invoicePrice : ℚ
  distributorPrice : ℚ
  retailerPrice : ℚ
deriving DecidableEq

/-- The derived breakdown (mirrors the `CalculationResults` interface). -/
structure CalculationResults where
  rawMaterialsCost : ℚ
  transportCost : ℚ
  packingCost : ℚ
  fumigationCost : ℚ
  customsClearanceCost : ℚ
  otherCosts : ℚ
  totalProcurementCost : ℚ
  marginAmount : ℚ
  exportDutyAmount : ℚ
  invoiceValue : ℚ
  freightCost : ℚ
  importDutyCost : ℚ
  destinationCustomsClearance : ℚ
  destinationTransport : ℚ
  otherLogisticsCosts : ℚ
  totalLogisticsCost : ℚ
  importerTotalCost : ℚ
  distributorPrice : ℚ
  retailerPrice : ℚ
  totalMarginPercentage : ℚ
  productBreakdown : List ProductBreakdownEntry
deriving DecidableEq

/-- `input.products.filter(p => p.included && p.quantity > 0)`. -/
def includedProducts (input : CalculationInput) : List ProductLine :=
  input.products.filter (fun p => p.included && decide (0 < p.quantity))

/-- `includedProducts.reduce((sum, product) => sum + product.quantity * product.unitPrice, 0)`. -/
def rawMaterialsCost (input : CalculationInput) : ℚ :=
  (includedProducts input).foldl (fun sum product => sum + product.quantity * product.unitPrice) 0

/-- The second, identical reduce over the filtered products in the source
(`totalProductValue`). -/
def totalProductValue (input : CalculationInput) : ℚ :=
  (includedProducts input).foldl (fun sum product => sum + product.quantity * product.unitPrice) 0

/-- The guarded weighted-average margin:
`totalProductValue > 0 ? includedProducts.reduce((sum, p) => sum + p.margin * (p.quantity*p.unitPrice)/totalProductValue, 0) : 0`. -/
def weightedMargin (input : CalculationInput) : ℚ :=
  if 0 < totalProductValue input then
    (includedProducts input).foldl
      (fun sum product =>
        sum + product.margin * (product.quantity * product.unitPrice / totalProductValue input)) 0
  else 0

/-- The per-product entry built by the breakdown map of the source (its
unused intermediate allocations `allocatedProcurementCost` and
`allocatedImporterCost` are dead code and are omitted). -/
def breakdownEntry (tpv invoiceValue distributorPrice retailerPrice : ℚ)
    (product : ProductLine) : ProductBreakdownEntry :=
  let productTotal := product.quantity * product.unitPrice
  let productShare := if 0 < tpv then productTotal / tpv else 0
  let allocatedInvoiceValue := invoiceValue * productShare
  let allocatedDistributorPrice := distributorPrice * productShare
  let allocatedRetailerPrice := retailerPrice * productShare
  { name := product.name
    quantity := product.quantity
    unitCost := product.unitPrice
    margin := product.margin
    invoicePrice := allocatedInvoiceValue / product.quantity
    distributorPrice := allocatedDistributorPrice / product.quantity
    retailerPrice := allocatedRetailerPrice / product.quantity }

/-- The pricing engine `calculateEstimate`, embedded stage by stage from the
source. -/
def calculateEstimate (input : CalculationInput) : CalculationResults :=
  let rawMaterials := rawMaterialsCost input
  let otherCosts := input.fumigationCost + input.customsClearanceCost
  let totalProcurementCost := rawMaterials + input.transportCost + input.packingCost + otherCosts
  let wm := weightedMargin input
  let marginAmount := totalProcurementCost * (wm / 100)
  let invoiceValueBeforeDuty := totalProcurementCost + marginAmount
  let exportDutyAmount := invoiceValueBeforeDuty * (input.exportDutyRate / 100)
  let invoiceValue := invoiceValueBeforeDuty + exportDutyAmount
  let otherLogisticsCosts := input.destinationCustomsClearance + input.destinationTransport
  let totalLogisticsCost := input.freightCost + input.importDuty + otherLogisticsCosts
  let importerTotalCost := invoiceValue + totalLogisticsCost
  let distributorPrice := importerTotalCost * (1 + input.distributorMargin / 100)
  let retailerPrice := distributorPrice * (1 + input.retailerMargin / 100)
  let totalMarginPercentage :=
    if 0 < totalProcurementCost then
      ((retailerPrice - totalProcurementCost) / totalProcurementCost) * 100
    else 0
  let productBreakdown := (includedProducts input).map
    (breakdownEntry (totalProductValue input) invoiceValue distributorPrice retailerPrice)
  { rawMaterialsCost := rawMaterials
    transportCost := input.transportCost
    packingCost := input.packingCost
    fumigationCost := input.fumigationCost
    customsClearanceCost := input.customsClearanceCost
    otherCosts := otherCosts
    totalProcurementCost := totalProcurementCost
    marginAmount := marginAmount
    exportDutyAmount := exportDutyAmount
    invoiceValue := invoiceValue
    freightCost := input.freightCost
    importDutyCost := input.importDuty
    destinationCustomsClearance := input.destinationCustomsClearance
    destinationTransport := input.destinationTransport
    otherLogisticsCosts := otherLogisticsCosts
    totalLogisticsCost := totalLogisticsCost
    importerTotalCost := importerTotalCost
    distributorPrice := distributorPrice
    retailerPrice := retailerPrice
    totalMarginPercentage := totalMarginPercentage
    productBreakdown := productBreakdown }

/-- Division that fails (returns `none`) on a zero denominator.  Used by the
checked interpreter below to certify that every division the engine performs
has a nonzero denominator. -/
def divOpt (a b : ℚ) : Option ℚ :=
  if b = 0 then none else some (a / b)

/-- Fallible map over a list, propagating failure. -/
def mapOpt {α β : Type} (f : α → Option β) : List α → Option (List β)
  | [] => some []
  | a :: l => do
    let b ← f a
    let t ← mapOpt f l
    pure (b :: t)

/-- Fallible left fold over a list, propagating failure. -/
def foldlOpt {α β : Type} (f : β → α → Option β) : β → List α → Option β
  | b, [] => some b
  | b, a :: l => do
    let b' ← f b a
    foldlOpt f b' l

/-- The breakdown entry builder with its two division sites checked. -/
def breakdownEntryChecked (tpv invoiceValue distributorPrice retailerPrice : ℚ)
    (product : ProductLine) : Option ProductBreakdownEntry := do
  let productTotal := product.quantity * product.unitPrice
  let productShare ← if 0 < tpv then divOpt productTotal tpv else pure 0
  let allocatedInvoiceValue := invoiceValue * productShare
  let allocatedDistributorPrice := distributorPrice * productShare
  let allocatedRetailerPrice := retailerPrice * productShare
  let ip ← divOpt allocatedInvoiceValue product.quantity
  let dp ← divOpt allocatedDistributorPrice product.quantity
  let rp ← divOpt allocatedRetailerPrice product.quantity
  pure { name := product.name
         quantity := product.quantity
         unitCost := product.unitPrice
         margin := product.margin
         invoicePrice := ip
         distributorPrice := dp
         retailerPrice := rp : ProductBreakdownEntry }

/-- The pricing engine re-interpreted with every division checked: each
division site of the source becomes a `divOpt`, so the result is `none` as
soon as any division is taken with a zero denominator. -/
def calculateEstimateChecked (input : CalculationInput) : Option CalculationResults := do
  let included := includedProducts input
  let rawMaterials := included.foldl (fun sum product => sum + product.quantity * product.unitPrice) 0
  let otherCosts := input.fumigationCost + input.customsClearanceCost
  let totalProcurementCost := rawMaterials + input.transportCost + input.packingCost + otherCosts
  let tpv := totalProductValue input
  let wm ← if 0 < tpv then
      foldlOpt (fun sum product => do
        let w ← divOpt (product.quantity * product.unitPrice) tpv
        pure (sum + product.margin * w)) 0 included
    else pure 0
  let marginAmount := totalProcurementCost * (wm / 100)
  let invoiceValueBeforeDuty := totalProcurementCost + marginAmount
  let exportDutyAmount := invoiceValueBeforeDuty * (input.exportDutyRate / 100)
  let invoiceValue := invoiceValueBeforeDuty + exportDutyAmount
  let otherLogisticsCosts := input.destinationCustomsClearance + input.destinationTransport
  let totalLogisticsCost := input.freightCost + input.importDuty + otherLogisticsCosts
  let importerTotalCost := invoiceValue + totalLogisticsCost
  let distributorPrice := importerTotalCost * (1 + input.distributorMargin / 100)
  let retailerPrice := distributorPrice * (1 + input.retailerMargin / 100)
  let totalMarginPercentage :=
    if 0 < totalProcurementCost then
      ((retailerPrice - totalProcurementCost) / totalProcurementCost) * 100
    else 0
  let productBreakdown ←
    mapOpt (breakdownEntryChecked tpv invoiceValue distributorPrice retailerPrice) included
  pure { rawMaterialsCost := rawMaterials
         transportCost := input.transportCost
         packingCost := input.packingCost
         fumigationCost := input.fumigationCost
         customsClearanceCost := input.customsClearanceCost
         otherCosts := otherCosts
         totalProcurementCost := totalProcurementCost
         marginAmount := marginAmount
         exportDutyAmount := exportDutyAmount
         invoiceValue := invoiceValue
         freightCost := input.freightCost
         importDutyCost := input.importDuty
         destinationCustomsClearance := input.destinationCustomsClearance
         destinationTransport := input.destinationTransport
         otherLogisticsCosts := otherLogisticsCosts
         totalLogisticsCost := totalLogisticsCost
         importerTotalCost := importerTotalCost
         distributorPrice := distributorPrice
         retailerPrice := retailerPrice
         totalMarginPercentage := totalMarginPercentage
         productBreakdown := productBreakdown }

/-! ### In-memory estimate store (`MemStorage` of `server/storage.ts`)

A stored estimate record, per the `estimates` table of `shared/schema.ts`:
monetary columns are decimal-as-string, the two `jsonb` payloads
(`products`, `calculationResults`) are opaque to every storage operation and
are modelled as opaque string payloads. -/

/-- A persisted estimate record (row of the `estimates` table). -/
structure Estimate where
  id : Nat
  containerId : String
  destination : String
  estimateDate : String
  status : String
  products : String
  transportCost : String
  packingCost : String
  fumigationCost : String
  customsClearanceCost : String
  exportDutyRate : String
  defaultMargin : String
  freightCost : String
  importDuty : String
  destinationCustomsClearance : String
  destinationTransport : String
  distributorMargin : String
  retailerMargin : String
  calculationResults : Option String
  createdBy : String
  userRole : String
deriving DecidableEq

/-- An insertion payload (`InsertEstimate`): the schema's defaulted columns
and the nullable `calculationResults` are optional, `none` modelling a field
absent from the payload (JavaScript `undefined`). -/
structure InsertEstimate where
  containerId : String
  destination : String
  estimateDate : String
  status : Option String
  products : String
  transportCost : Option String
  packingCost : Option String
  fumigationCost : Option String
  customsClearanceCost : Option String
  exportDutyRate : Option String
  defaultMargin : Option String
  freightCost : Option String
  importDuty : Option String
  destinationCustomsClearance : Option String
  destinationTransport : Option String
  distributorMargin : Option String
  retailerMargin : Option String
  calculationResults : Option String
  createdBy : String
  userRole : String
deriving DecidableEq

/-- The state of a `MemStorage`: the map's records in insertion order,
together with the `currentId` counter. -/
structure MemStorage where
  estimates : List Estimate
  currentId : Nat
deriving DecidableEq

/-- The JavaScript `x || d` defaulting idiom on an optional string field:
an absent (`undefined`) or empty (falsy) string is replaced by the default. -/
def orDefault (v : Option String) (d : String) : String :=
  match v with
  | none => d
  | some s => if s = "" then d else s

/-- The descending-id ordering used by every listing: `(a, b) => b.id - a.id`. -/
def idGe (a b : Estimate) : Prop := b.id ≤ a.id

instance : DecidableRel idGe := fun a b => Nat.decLe b.id a.id

instance : IsTotal Estimate idGe := ⟨fun a b => Nat.le_total b.id a.id⟩

instance : IsTrans Estimate idGe := ⟨fun _ _ _ hab hbc => Nat.le_trans hbc hab⟩

/-- `Array.from(map.values()).sort((a, b) => b.id - a.id)`: a stable sort on
descending id, modelled by insertion sort (JavaScript sort is stable). -/
def sortByIdDesc (l : List Estimate) : List Estimate :=
  l.insertionSort idGe

/-- `needle` occurs as a contiguous substring of `hay`
(JavaScript `hay.includes(needle)`), over character lists. -/
def listContainsSub (needle : List Char) : List Char → Bool
  | [] => needle.isEmpty
  | c :: t => needle.isPrefixOf (c :: t) || listContainsSub needle t

/-- JavaScript `hay.includes(needle)` on strings. -/
def strIncludes (hay needle : String) : Bool :=
  listContainsSub needle.data hay.data

/-- `MemStorage.getAllEstimates`. -/
def getAllEstimates (s : MemStorage) : List Estimate :=
  sortByIdDesc s.estimates

/-- `MemStorage.getEstimatesByStatus`. -/
def getEstimatesByStatus (status : String) (s : MemStorage) : List Estimate :=
  sortByIdDesc (s.estimates.filter (fun estimate => estimate.status == status))

/-- The search predicate of `MemStorage.searchEstimates`:
`containerId.toLowerCase().includes(q) || destination.toLowerCase().includes(q)`
with `q` the lowercased query. -/
def searchMatches (lowercaseQuery : String) (estimate : Estimate) : Bool :=
  strIncludes estimate.containerId.toLower lowercaseQuery ||
    strIncludes estimate.destination.toLower lowercaseQuery

/-- `MemStorage.searchEstimates`. -/
def searchEstimates (query : String) (s : MemStorage) : List Estimate :=
  let lowercaseQuery := query.toLower
  sortByIdDesc (s.estimates.filter (searchMatches lowercaseQuery))

/-- `MemStorage.createEstimate`: consumes `currentId` as the fresh id,
applies the `||`-defaults, stores the record and returns it with the new
store state. -/
def createEstimate (insertEstimate : InsertEstimate) (s : MemStorage) :
    Estimate × MemStorage :=
  let id := s.currentId
  let estimate : Estimate :=
    { id := id
      containerId := insertEstimate.containerId
      destination := insertEstimate.destination
      estimateDate := insertEstimate.estimateDate
      status := orDefault insertEstimate.status "draft"
      products := insertEstimate.products
      transportCost := orDefault insertEstimate.transportCost "0"
      packingCost := orDefault insertEstimate.packingCost "0"
      fumigationCost := orDefault insertEstimate.fumigationCost "0"
      customsClearanceCost := orDefault insertEstimate.customsClearanceCost "0"
      exportDutyRate := orDefault insertEstimate.exportDutyRate "0"
      defaultMargin := orDefault insertEstimate.defaultMargin "15"
      freightCost := orDefault insertEstimate.freightCost "0"
      importDuty := orDefault insertEstimate.importDuty "0"
      destinationCustomsClearance := orDefault insertEstimate.destinationCustomsClearance "0"
      destinationTransport := orDefault insertEstimate.destinationTransport "0"
      distributorMargin := orDefault insertEstimate.distributorMargin "12"
      retailerMargin := orDefault insertEstimate.retailerMargin "20"
      calculationResults := insertEstimate.calculationResults
      createdBy := insertEstimate.createdBy
      userRole := insertEstimate.userRole }
  (estimate, { estimates := s.estimates ++ [estimate], currentId := s.currentId + 1 })

/-- How a defaulted field is stored: an absent or empty supplied value is
replaced by the default `d`, a non-empty supplied value is stored unchanged. -/
def DefaultsTo (v : Option String) (d r : String) : Prop :=
  ((v = none ∨ v = some "") → r = d) ∧ (∀ x, v = some x → x ≠ "" → r = x)

/-! ### Concrete inputs used by scenario claims, counterexamples and witnesses -/

/-- An input with every cost field and rate 0 apart from `products`. -/
def zeroCostInput (ps : List ProductLine) : CalculationInput :=
  { products := ps
    transportCost := 0, packingCost := 0, fumigationCost := 0, customsClearanceCost := 0
    exportDutyRate := 0, freightCost := 0, importDuty := 0, destinationCustomsClearance := 0
    destinationTransport := 0, distributorMargin := 0, retailerMargin := 0 }

/-- Scenario A: one product, quantity 10, unit price 100, margin 15, all
other costs and rates 0. -/
def exInputA : CalculationInput :=
  zeroCostInput [{ name := "A", quantity := 10, unitPrice := 100, included := true, margin := 15 }]

/-- Scenario B: two products of equal value share, the first carrying the
lower margin. -/
def exInputB1 : CalculationInput :=
  zeroCostInput
    [{ name := "P1", quantity := 10, unitPrice := 100, included := true, margin := 10 },
     { name := "P2", quantity := 20, unitPrice := 50, included := true, margin := 20 }]

/-- Scenario B with the margins swapped: the first product carries the
higher margin. -/
def exInputB2 : CalculationInput :=
  zeroCostInput
    [{ name := "P1", quantity := 10, unitPrice := 100, included := true, margin := 20 },
     { name := "P2", quantity := 20, unitPrice := 50, included := true, margin := 10 }]

/-- An input with one filtered product of zero unit price and a nonzero
transport cost: the filtered set is nonempty but the total product value
is 0 while the invoice value is 100. -/
def exInputZeroValue : CalculationInput :=
  { products := [{ name := "Z", quantity := 10, unitPrice := 0, included := true, margin := 0 }]
    transportCost := 100, packingCost := 0, fumigationCost := 0, customsClearanceCost := 0
    exportDutyRate := 0, freightCost := 0, importDuty := 0, destinationCustomsClearance := 0
    destinationTransport := 0, distributorMargin := 0, retailerMargin := 0 }

/-- An input whose only product line is excluded (`included = false`) and
whose cost fields are nonzero. -/
def exInputExcluded : CalculationInput :=
  { products := [{ name := "X", quantity := 5, unitPrice := 40, included := false, margin := 9 }]
    transportCost := 7, packingCost := 11, fumigationCost := 13, customsClearanceCost := 17
    exportDutyRate := 5, freightCost := 19, importDuty := 23, destinationCustomsClearance := 29
    destinationTransport := 31, distributorMargin := 12, retailerMargin := 20 }

/-- An excluded product line (`included = false`). -/
def exLine : ProductLine :=
  { name := "dead", quantity := 3, unitPrice := 8, included := false, margin := 50 }

/-- A stored record with id 1. -/
def exEstimate : Estimate :=
  { id := 1, containerId := "CONT-1", destination := "Rotterdam", estimateDate := "2024-01-01"
    status := "draft", products := "[]"
    transportCost := "5", packingCost := "0", fumigationCost := "0", customsClearanceCost := "0"
    exportDutyRate := "0", defaultMargin := "15", freightCost := "0", importDuty := "0"
    destinationCustomsClearance := "0", destinationTransport := "0"
    distributorMargin := "12", retailerMargin := "20"
    calculationResults := none, createdBy := "u1", userRole := "admin" }

/-- A store holding `exEstimate` with the counter at 2. -/
def exStore : MemStorage :=
  { estimates := [exEstimate], currentId := 2 }

/-- An insertion payload with `status` absent, `transportCost` supplied
empty, `packingCost` supplied as a non-empty value, and the remaining
defaulted fields absent. -/
def exInsert : InsertEstimate :=
  { containerId := "CONT-2", destination := "Hamburg", estimateDate := "2024-02-02"
    status := none, products := "[]"
    transportCost := some "", packingCost := some "42.50", fumigationCost := none
    customsClearanceCost := none, exportDutyRate := none, defaultMargin := none
    freightCost := none, importDuty := none, destinationCustomsClearance := none
    destinationTransport := none, distributorMargin := none, retailerMargin := none
    calculationResults := none, createdBy := "u2", userRole := "ops_analyst" }

/-! ## Helper lemmas -/

/-- A left fold accumulating `+ f x` computes the initial value plus the sum
of the mapped list. -/
lemma foldl_add_eq {α : Type} (f : α → ℚ) (l : List α) : ∀ a : ℚ,
    l.foldl (fun sum x => sum + f x) a = a + (l.map f).sum := by
  induction l with
  | nil => intro a; simp
  | cons x t ih => intro a; simp only [List.foldl_cons, List.map_cons, List.sum_cons, ih]; ring

/-- The total product value as a mapped sum. -/
lemma totalProductValue_eq (input : CalculationInput) :
    totalProductValue input =
      ((includedProducts input).map (fun p => p.quantity * p.unitPrice)).sum := by
  rw [totalProductValue, foldl_add_eq, zero_add]

/-- Every filtered product line has positive quantity. -/
lemma includedProducts_pos (input : CalculationInput) :
    ∀ p ∈ includedProducts input, 0 < p.quantity := by
  intro p hp
  simp only [includedProducts, List.mem_filter, Bool.and_eq_true, decide_eq_true_eq] at hp
  exact hp.2.2

/-- Allocating `V` by value share and re-weighting per-unit prices by
quantity sums to `V` scaled by the ratio of total value to `T`. -/
lemma sum_alloc (V T : ℚ) : ∀ l : List ProductLine, (∀ p ∈ l, p.quantity ≠ 0) →
    (l.map (fun p => V * (p.quantity * p.unitPrice / T) / p.quantity * p.quantity)).sum =
      V * ((l.map (fun p => p.quantity * p.unitPrice)).sum / T) := by
  intro l
  induction l with
  | nil => intro _; simp
  | cons p t ih =>
    intro h
    have hq : p.quantity ≠ 0 := h p (List.mem_cons_self p t)
    have ht := ih (fun x hx => h x (List.mem_cons_of_mem p hx))
    simp only [List.map_cons, List.sum_cons, ht, div_mul_cancel₀ _ hq]
    ring

/-- With a positive total product value, the quantity-weighted sum of the
per-unit allocation of any total `V` over the filtered lines is `V`. -/
lemma breakdown_sum (input : CalculationInput) (hT : 0 < totalProductValue input) (V : ℚ) :
    ((includedProducts input).map
        (fun p => V * (p.quantity * p.unitPrice / totalProductValue input) / p.quantity *
          p.quantity)).sum = V := by
  rw [sum_alloc V (totalProductValue input) (includedProducts input)
      (fun p hp => ne_of_gt (includedProducts_pos input p hp)),
    ← totalProductValue_eq, div_self (ne_of_gt hT), mul_one]

/-- An input all of whose lines are excluded has an empty filtered set. -/
lemma includedProducts_eq_nil (input : CalculationInput)
    (h : ∀ p ∈ input.products, p.included = false ∨ p.quantity ≤ 0) :
    includedProducts input = [] := by
  rw [includedProducts, List.filter_eq_nil_iff]
  intro p hp
  rcases h p hp with h1 | h1
  · simp [h1]
  · simp [not_lt.mpr h1]

/-- A fallible fold whose step never fails computes the plain fold. -/
lemma foldlOpt_eq_foldl {α β : Type} (f : β → α → Option β) (g : β → α → β)
    (h : ∀ b a, f b a = some (g b a)) : ∀ (l : List α) (b : β),
    foldlOpt f b l = some (l.foldl g b) := by
  intro l
  induction l with
  | nil => intro b; rfl
  | cons a t ih =>
    intro b
    simp only [foldlOpt, h, Option.pure_def, Option.bind_eq_bind, Option.some_bind,
      List.foldl_cons, ih]

/-- A fallible map whose body never fails computes the plain map. -/
lemma mapOpt_eq_map {α β : Type} (f : α → Option β) (g : α → β) :
    ∀ l : List α, (∀ a ∈ l, f a = some (g a)) → mapOpt f l = some (l.map g) := by
  intro l
  induction l with
  | nil => intro _; rfl
  | cons a t ih =>
    intro h
    simp only [mapOpt, h a (List.mem_cons_self a t),
      ih (fun x hx => h x (List.mem_cons_of_mem a hx)), List.map_cons]
    simp only [Option.pure_def, Option.bind_eq_bind, Option.some_bind]

/-- The checked breakdown entry never fails on a line of nonzero quantity. -/
lemma breakdownEntryChecked_eq (tpv IV DP RP : ℚ) (p : ProductLine) (hp : p.quantity ≠ 0) :
    breakdownEntryChecked tpv IV DP RP p = some (breakdownEntry tpv IV DP RP p) := by
  by_cases h : 0 < tpv
  · simp [breakdownEntryChecked, breakdownEntry, divOpt, if_pos h, ne_of_gt h, hp]
  · simp [breakdownEntryChecked, breakdownEntry, divOpt, if_neg h, hp]

/-- The `||`-defaulting of `createEstimate` satisfies `DefaultsTo`. -/
lemma orDefault_defaultsTo (v : Option String) (d : String) :
    DefaultsTo v d (orDefault v d) := by
  constructor
  · rintro (rfl | rfl)
    · rfl
    · simp [orDefault]
  · rintro x rfl hne
    simp [orDefault, hne]

/-! ## Claims -/

/-- C1 (amended): for every input whose filtered products have positive
total product value, the quantity-weighted sums of the per-unit
`invoicePrice`, `distributorPrice` and `retailerPrice` over the breakdown
equal the blended `invoiceValue`, `distributorPrice` and `retailerPrice`
exactly (hence within any tolerance).  The original claim, hypothesising
only a nonempty filtered set, fails when the total product value is zero
(see the counterexample). -/
theorem allocation_roundtrip (input : CalculationInput)
    (hT : 0 < totalProductValue input) :
    ((calculateEstimate input).productBreakdown.map (fun b => b.invoicePrice * b.quantity)).sum =
        (calculateEstimate input).invoiceValue ∧
      ((calculateEstimate input).productBreakdown.map
          (fun b => b.distributorPrice * b.quantity)).sum =
        (calculateEstimate input).distributorPrice ∧
      ((calculateEstimate input).productBreakdown.map
          (fun b => b.retailerPrice * b.quantity)).sum =
        (calculateEstimate input).retailerPrice := by
  simp only [calculateEstimate, List.map_map, Function.comp_def, breakdownEntry, if_pos hT]
  refine ⟨?_, ?_, ?_⟩ <;> exact breakdown_sum input hT _

/-- C1 counterexample: `exInputZeroValue` has one filtered product (so the
claim's hypothesis holds) yet the quantity-weighted `invoicePrice` sum is 0
while `invoiceValue` is 100, violating the claimed 1e-6 relative
tolerance. -/
theorem allocation_roundtrip_cex :
    (includedProducts exInputZeroValue).length = 1 ∧
      ¬ |((calculateEstimate exInputZeroValue).productBreakdown.map
            (fun b => b.invoicePrice * b.quantity)).sum -
          (calculateEstimate exInputZeroValue).invoiceValue| ≤
        1 / 1000000 * |(calculateEstimate exInputZeroValue).invoiceValue| := by
  norm_num [calculateEstimate, breakdownEntry, includedProducts, rawMaterialsCost,
    totalProductValue, weightedMargin, exInputZeroValue, List.filter, List.foldl, abs]

/-- C1 witness: the amended round-trip theorem applied at Scenario A. -/
theorem allocation_roundtrip_witness :
    0 < totalProductValue exInputA ∧
      (((calculateEstimate exInputA).productBreakdown.map
            (fun b => b.invoicePrice * b.quantity)).sum =
          (calculateEstimate exInputA).invoiceValue ∧
        ((calculateEstimate exInputA).productBreakdown.map
            (fun b => b.distributorPrice * b.quantity)).sum =
          (calculateEstimate exInputA).distributorPrice ∧
        ((calculateEstimate exInputA).productBreakdown.map
            (fun b => b.retailerPrice * b.quantity)).sum =
          (calculateEstimate exInputA).retailerPrice) :=
  ⟨by norm_num [totalProductValue, includedProducts, exInputA, zeroCostInput],
    allocation_roundtrip exInputA
      (by norm_num [totalProductValue, includedProducts, exInputA, zeroCostInput])⟩

/-- C2: for every input, `invoiceValue` equals the closed form
`totalProcurementCost × (1 + weightedMargin/100) × (1 + exportDutyRate/100)`:
the staged computation of margin amount, pre-duty invoice value, export duty
amount and invoice value equals this single expression. -/
theorem invoiceValue_closed_form (input : CalculationInput) :
    (calculateEstimate input).invoiceValue =
      (calculateEstimate input).totalProcurementCost * (1 + weightedMargin input / 100) *
        (1 + input.exportDutyRate / 100) := by
  simp only [calculateEstimate]
  ring

/-- C3: Scenario A (one product, quantity 10, unit price 100, margin 15,
everything else 0) yields raw materials 1000, procurement 1000, margin
amount 150, invoice value 1150, importer total 1150, distributor and
retailer prices 1150, and a per-unit invoice price of 115. -/
theorem scenarioA :
    (calculateEstimate exInputA).rawMaterialsCost = 1000 ∧
      (calculateEstimate exInputA).totalProcurementCost = 1000 ∧
      (calculateEstimate exInputA).marginAmount = 150 ∧
      (calculateEstimate exInputA).invoiceValue = 1150 ∧
      (calculateEstimate exInputA).importerTotalCost = 1150 ∧
      (calculateEstimate exInputA).distributorPrice = 1150 ∧
      (calculateEstimate exInputA).retailerPrice = 1150 ∧
      ((calculateEstimate exInputA).productBreakdown.map (fun b => b.invoicePrice)).head? =
        some 115 := by
  norm_num [calculateEstimate, breakdownEntry, rawMaterialsCost, totalProductValue,
    weightedMargin, includedProducts, exInputA, zeroCostInput, List.filter, List.foldl]

/-- C4: the weighted margin is the value-share-weighted average of the
filtered lines' margins; in particular the two equal-value Scenario B
inputs both blend margins 10 and 20 to 15, whichever product carries the
higher margin. -/
theorem weightedMargin_weighted_avg :
    (∀ input : CalculationInput, 0 < totalProductValue input →
        weightedMargin input =
          ((includedProducts input).map
              (fun p => p.margin * (p.quantity * p.unitPrice / totalProductValue input))).sum) ∧
      weightedMargin exInputB1 = 15 ∧ weightedMargin exInputB2 = 15 := by
  refine ⟨fun input hT => ?_, ?_, ?_⟩
  · rw [weightedMargin, if_pos hT, foldl_add_eq, zero_add]
  · norm_num [weightedMargin, totalProductValue, includedProducts, exInputB1, zeroCostInput,
      List.filter, List.foldl]
  · norm_num [weightedMargin, totalProductValue, includedProducts, exInputB2, zeroCostInput,
      List.filter, List.foldl]

/-- C4 witness: the weighted-average formula instantiated at the first
Scenario B input. -/
theorem weightedMargin_weighted_avg_witness :
    0 < totalProductValue exInputB1 ∧
      weightedMargin exInputB1 =
        ((includedProducts exInputB1).map
            (fun p => p.margin * (p.quantity * p.unitPrice / totalProductValue exInputB1))).sum :=
  ⟨by norm_num [totalProductValue, includedProducts, exInputB1, zeroCostInput],
    weightedMargin_weighted_avg.1 exInputB1
      (by norm_num [totalProductValue, includedProducts, exInputB1, zeroCostInput])⟩

/-- C5: on an input whose product set is empty or fully excluded, the
engine returns zero raw materials cost, zero margin amount (no division by
zero) and an empty breakdown, while the cost fields echoed from the input
are returned unchanged. -/
theorem empty_products_spec (input : CalculationInput)
    (h : ∀ p ∈ input.products, p.included = false ∨ p.quantity ≤ 0) :
    (calculateEstimate input).rawMaterialsCost = 0 ∧
      (calculateEstimate input).marginAmount = 0 ∧
      (calculateEstimate input).productBreakdown = [] ∧
      (calculateEstimate input).transportCost = input.transportCost ∧
      (calculateEstimate input).packingCost = input.packingCost ∧
      (calculateEstimate input).fumigationCost = input.fumigationCost ∧
      (calculateEstimate input).customsClearanceCost = input.customsClearanceCost ∧
      (calculateEstimate input).freightCost = input.freightCost ∧
      (calculateEstimate input).importDutyCost = input.importDuty ∧
      (calculateEstimate input).destinationCustomsClearance =
        input.destinationCustomsClearance ∧
      (calculateEstimate input).destinationTransport = input.destinationTransport := by
  have hincl := includedProducts_eq_nil input h
  simp [calculateEstimate, rawMaterialsCost, totalProductValue, weightedMargin, hincl]

/-- C5 witness: the fully-excluded-input theorem applied at
`exInputExcluded`. -/
theorem empty_products_spec_witness :
    (∀ p ∈ exInputExcluded.products, p.included = false ∨ p.quantity ≤ 0) ∧
      ((calculateEstimate exInputExcluded).rawMaterialsCost = 0 ∧
        (calculateEstimate exInputExcluded).marginAmount = 0 ∧
        (calculateEstimate exInputExcluded).productBreakdown = [] ∧
        (calculateEstimate exInputExcluded).transportCost = exInputExcluded.transportCost ∧
        (calculateEstimate exInputExcluded).packingCost = exInputExcluded.packingCost ∧
        (calculateEstimate exInputExcluded).fumigationCost = exInputExcluded.fumigationCost ∧
        (calculateEstimate exInputExcluded).customsClearanceCost =
          exInputExcluded.customsClearanceCost ∧
        (calculateEstimate exInputExcluded).freightCost = exInputExcluded.freightCost ∧
        (calculateEstimate exInputExcluded).importDutyCost = exInputExcluded.importDuty ∧
        (calculateEstimate exInputExcluded).destinationCustomsClearance =
          exInputExcluded.destinationCustomsClearance ∧
        (calculateEstimate exInputExcluded).destinationTransport =
          exInputExcluded.destinationTransport) :=
  ⟨by decide, empty_products_spec exInputExcluded (by decide)⟩

/-- C6: appending an excluded line (not included, or of nonpositive
quantity) to an input leaves every field of the result, the breakdown
included, identical — equivalently, removing such a line changes nothing. -/
theorem excluded_line_invisible (input : CalculationInput) (L : ProductLine)
    (h : L.included = false ∨ L.quantity ≤ 0) :
    calculateEstimate { input with products := input.products ++ [L] } =
      calculateEstimate input := by
  have hL : List.filter (fun p => p.included && decide (0 < p.quantity)) [L] = [] := by
    rcases h with h1 | h1
    · simp [h1]
    · simp [not_lt.mpr h1]
  have hincl : includedProducts { input with products := input.products ++ [L] } =
      includedProducts input := by
    rw [includedProducts, includedProducts]
    show (input.products ++ [L]).filter _ = _
    rw [List.filter_append, hL, List.append_nil]
  have hraw : rawMaterialsCost { input with products := input.products ++ [L] } =
      rawMaterialsCost input := by
    rw [rawMaterialsCost, rawMaterialsCost, hincl]
  have htpv : totalProductValue { input with products := input.products ++ [L] } =
      totalProductValue input := by
    rw [totalProductValue, totalProductValue, hincl]
  have hwm : weightedMargin { input with products := input.products ++ [L] } =
      weightedMargin input := by
    rw [weightedMargin, weightedMargin, hincl, htpv]
  simp only [calculateEstimate, hincl, hraw, htpv, hwm]

/-- C6 witness: appending the excluded line `exLine` to Scenario A. -/
theorem excluded_line_invisible_witness :
    (exLine.included = false ∨ exLine.quantity ≤ 0) ∧
      calculateEstimate { exInputA with products := exInputA.products ++ [exLine] } =
        calculateEstimate exInputA :=
  ⟨by decide, excluded_line_invisible exInputA exLine (by decide)⟩

/-- C7: for every input, the total procurement cost equals raw materials
plus transport, packing, fumigation and customs-clearance costs exactly. -/
theorem totalProcurementCost_sum (input : CalculationInput) :
    (calculateEstimate input).totalProcurementCost =
      (calculateEstimate input).rawMaterialsCost + (calculateEstimate input).transportCost +
        (calculateEstimate input).packingCost + (calculateEstimate input).fumigationCost +
        (calculateEstimate input).customsClearanceCost := by
  simp only [calculateEstimate]
  ring

/-- C8: the engine is total and never fails: the checked interpreter, in
which every division site of the source fails on a zero denominator,
succeeds on every input and computes exactly `calculateEstimate` — the
weighted-margin and allocation-share divisions are guarded by
`0 < totalProductValue` and the per-unit divisions only divide by the
positive quantities of filtered lines. -/
theorem calculateEstimate_never_fails (input : CalculationInput) :
    calculateEstimateChecked input = some (calculateEstimate input) := by
  have hq : ∀ p ∈ includedProducts input, p.quantity ≠ 0 :=
    fun p hp => ne_of_gt (includedProducts_pos input p hp)
  have hmap : ∀ IV DP RP : ℚ,
      mapOpt (breakdownEntryChecked (totalProductValue input) IV DP RP)
          (includedProducts input) =
        some ((includedProducts input).map
          (breakdownEntry (totalProductValue input) IV DP RP)) :=
    fun IV DP RP => mapOpt_eq_map _ _ (includedProducts input)
      (fun p hp => breakdownEntryChecked_eq _ _ _ _ p (hq p hp))
  by_cases hT : 0 < totalProductValue input
  · have hfold := foldlOpt_eq_foldl
      (fun (sum : ℚ) (product : ProductLine) => do
        let w ← divOpt (product.quantity * product.unitPrice) (totalProductValue input)
        pure (sum + product.margin * w))
      (fun (sum : ℚ) (product : ProductLine) =>
        sum + product.margin * (product.quantity * product.unitPrice / totalProductValue input))
      (fun b a => by simp [divOpt, if_neg (ne_of_gt hT)])
    simp only [calculateEstimateChecked, if_pos hT, hfold]
    simp only [Option.pure_def, Option.bind_eq_bind, Option.some_bind, hmap,
      calculateEstimate, weightedMargin, if_pos hT, rawMaterialsCost]
  · simp only [calculateEstimateChecked, if_neg hT]
    simp only [Option.pure_def, Option.bind_eq_bind, Option.some_bind, hmap,
      calculateEstimate, weightedMargin, if_neg hT, rawMaterialsCost]

/-- C9: `getAllEstimates` returns all stored records sorted by descending
id; `getEstimatesByStatus` returns exactly the records of the given status;
`searchEstimates` returns exactly the records whose container id or
destination contains the query case-insensitively — each list sorted by
descending id. -/
theorem storage_query_spec (s : MemStorage) (status query : String) :
    (List.Perm (getAllEstimates s) s.estimates ∧ (getAllEstimates s).Sorted idGe) ∧
      (List.Perm (getEstimatesByStatus status s)
          (s.estimates.filter (fun e => e.status == status)) ∧
        (∀ e : Estimate, e ∈ getEstimatesByStatus status s ↔
          e ∈ s.estimates ∧ e.status = status) ∧
        (getEstimatesByStatus status s).Sorted idGe) ∧
      (List.Perm (searchEstimates query s)
          (s.estimates.filter (searchMatches query.toLower)) ∧
        (∀ e : Estimate, e ∈ searchEstimates query s ↔
          e ∈ s.estimates ∧
            (strIncludes e.containerId.toLower query.toLower = true ∨
              strIncludes e.destination.toLower query.toLower = true)) ∧
        (searchEstimates query s).Sorted idGe) := by
  refine ⟨⟨List.perm_insertionSort idGe _, List.sorted_insertionSort idGe _⟩,
    ⟨List.perm_insertionSort idGe _, ?_, List.sorted_insertionSort idGe _⟩,
    ⟨List.perm_insertionSort idGe _, ?_, List.sorted_insertionSort idGe _⟩⟩
  · intro e
    have hp := List.perm_insertionSort idGe (s.estimates.filter (fun x => x.status == status))
    simp only [getEstimatesByStatus, sortByIdDesc, hp.mem_iff, List.mem_filter, beq_iff_eq]
  · intro e
    have hp := List.perm_insertionSort idGe (s.estimates.filter (searchMatches query.toLower))
    simp only [searchEstimates, sortByIdDesc, hp.mem_iff, List.mem_filter, searchMatches,
      Bool.or_eq_true]

/-- C10: `createEstimate` substitutes defaults for absent or empty-string
fields (status "draft", the monetary fields "0", defaultMargin "15",
distributorMargin "12", retailerMargin "20"), stores non-empty supplied
values unchanged, and assigns a fresh id strictly greater than every
previously assigned id, preserving the id invariant. -/
theorem createEstimate_spec (ins : InsertEstimate) (s : MemStorage)
    (h : ∀ e ∈ s.estimates, e.id < s.currentId) :
    DefaultsTo ins.status "draft" (createEstimate ins s).1.status ∧
      DefaultsTo ins.transportCost "0" (createEstimate ins s).1.transportCost ∧
      DefaultsTo ins.packingCost "0" (createEstimate ins s).1.packingCost ∧
      DefaultsTo ins.fumigationCost "0" (createEstimate ins s).1.fumigationCost ∧
      DefaultsTo ins.customsClearanceCost "0" (createEstimate ins s).1.customsClearanceCost ∧
      DefaultsTo ins.exportDutyRate "0" (createEstimate ins s).1.exportDutyRate ∧
      DefaultsTo ins.freightCost "0" (createEstimate ins s).1.freightCost ∧
      DefaultsTo ins.importDuty "0" (createEstimate ins s).1.importDuty ∧
      DefaultsTo ins.destinationCustomsClearance "0"
        (createEstimate ins s).1.destinationCustomsClearance ∧
      DefaultsTo ins.destinationTransport "0" (createEstimate ins s).1.destinationTransport ∧
      DefaultsTo ins.defaultMargin "15" (createEstimate ins s).1.defaultMargin ∧
      DefaultsTo ins.distributorMargin "12" (createEstimate ins s).1.distributorMargin ∧
      DefaultsTo ins.retailerMargin "20" (createEstimate ins s).1.retailerMargin ∧
      (∀ e ∈ s.estimates, e.id < (createEstimate ins s).1.id) ∧
      (createEstimate ins s).1 ∈ (createEstimate ins s).2.estimates ∧
      (∀ e ∈ (createEstimate ins s).2.estimates, e.id < (createEstimate ins s).2.currentId) := by
  refine ⟨orDefault_defaultsTo _ _, orDefault_defaultsTo _ _, orDefault_defaultsTo _ _,
    orDefault_defaultsTo _ _, orDefault_defaultsTo _ _, orDefault_defaultsTo _ _,
    orDefault_defaultsTo _ _, orDefault_defaultsTo _ _, orDefault_defaultsTo _ _,
    orDefault_defaultsTo _ _, orDefault_defaultsTo _ _, orDefault_defaultsTo _ _,
    orDefault_defaultsTo _ _, h, ?_, ?_⟩
  · show _ ∈ s.estimates ++ [_]
    exact List.mem_append_right _ (List.mem_singleton.mpr rfl)
  · intro e he
    rcases List.mem_append.mp he with h1 | h1
    · exact Nat.lt_trans (h e h1) (Nat.lt_succ_self _)
    · rw [List.mem_singleton.mp h1]
      exact Nat.lt_succ_self _

/-- C10 witness: `createEstimate` applied to `exInsert` on `exStore`. -/
theorem createEstimate_spec_witness :
    (∀ e ∈ exStore.estimates, e.id < exStore.currentId) ∧
      (DefaultsTo exInsert.status "draft" (createEstimate exInsert exStore).1.status ∧
        DefaultsTo exInsert.transportCost "0" (createEstimate exInsert exStore).1.transportCost ∧
        DefaultsTo exInsert.packingCost "0" (createEstimate exInsert exStore).1.packingCost ∧
        DefaultsTo exInsert.fumigationCost "0"
          (createEstimate exInsert exStore).1.fumigationCost ∧
        DefaultsTo exInsert.customsClearanceCost "0"
          (createEstimate exInsert exStore).1.customsClearanceCost ∧
        DefaultsTo exInsert.exportDutyRate "0"
          (createEstimate exInsert exStore).1.exportDutyRate ∧
        DefaultsTo exInsert.freightCost "0" (createEstimate exInsert exStore).1.freightCost ∧
        DefaultsTo exInsert.importDuty "0" (createEstimate exInsert exStore).1.importDuty ∧
        DefaultsTo exInsert.destinationCustomsClearance "0"
          (createEstimate exInsert exStore).1.destinationCustomsClearance ∧
        DefaultsTo exInsert.destinationTransport "0"
          (createEstimate exInsert exStore).1.destinationTransport ∧
        DefaultsTo exInsert.defaultMargin "15"
          (createEstimate exInsert exStore).1.defaultMargin ∧
        DefaultsTo exInsert.distributorMargin "12"
          (createEstimate exInsert exStore).1.distributorMargin ∧
        DefaultsTo exInsert.retailerMargin "20"
          (createEstimate exInsert exStore).1.retailerMargin ∧
        (∀ e ∈ exStore.estimates, e.id < (createEstimate exInsert exStore).1.id) ∧
        (createEstimate exInsert exStore).1 ∈ (createEstimate exInsert exStore).2.estimates ∧
        (∀ e ∈ (createEstimate exInsert exStore).2.estimates,
          e.id < (createEstimate exInsert exStore).2.currentId)) :=
  ⟨by decide, createEstimate_spec exInsert exStore (by decide)⟩

end ProfitCalc
